import Mathlib

/-!
Verification of the polars sources: the temporal physical/logical conversions
of `src/polars/src/chunked_array/temporal.rs`, the lazy-frame binding layer of
`src/py-polars/src/lazy/dataframe.rs`, and the foreign I/O adapter of
`src/py-polars/src/file.rs`, shallowly embedded in Lean.

Machine integers (i32/i64/u32) are embedded as ℤ/ℕ; the Rust cast and
truncating-division operators are made explicit (`asU32`, `asI32`,
`Int.tdiv`, `Int.tmod`).  Code that can panic is embedded with `Option`
(`none` = panic).  The chrono temporal types are external library types and
are modelled by their documented semantics.
-/

namespace Polars

/-! ### Rust machine-integer primitives -/

/-- Rust `as u32` cast of a signed integer: wrap modulo 2^32. -/
def asU32 (x : ℤ) : ℕ := (x % 4294967296).toNat

/-- Rust `as i32` cast of a signed integer: two's-complement wrap into
`[-2^31, 2^31)`. -/
def asI32 (x : ℤ) : ℤ := (x + 2147483648) % 4294967296 - 2147483648

/-! ### Model of the chrono temporal types the sources use

chrono is an external dependency; its types are modelled by their documented
semantics.  A `NaiveTime` is the pair (whole seconds from midnight, nanosecond
fraction); a `NaiveDate` is identified with its signed day offset from
1970-01-01 (civil dates and day offsets are in bijection); a `NaiveDateTime`
is the pair (signed Unix timestamp in seconds, subsecond nanoseconds). -/

/-- Model of chrono `NaiveTime`. `frac` may reach into a leap second, hence
the constructor bound of 2·10^9 nanoseconds. -/
structure NaiveTime where
  secs : ℕ
  frac : ℕ
deriving DecidableEq

/-- chrono `NaiveTime::from_num_seconds_from_midnight`: panics (`none`) when
`secs ≥ 86400` or `nano ≥ 2_000_000_000`. -/
def NaiveTime.from_num_seconds_from_midnight (secs nano : ℕ) : Option NaiveTime :=
  if secs < 86400 ∧ nano < 2000000000 then some ⟨secs, nano⟩ else none

def NaiveTime.hour (t : NaiveTime) : ℕ := t.secs / 3600

def NaiveTime.minute (t : NaiveTime) : ℕ := t.secs / 60 % 60

def NaiveTime.second (t : NaiveTime) : ℕ := t.secs % 60

def NaiveTime.nanosecond (t : NaiveTime) : ℕ := t.frac

/-- Model of chrono `NaiveDate`: the signed day offset from 1970-01-01. -/
structure NaiveDate where
  days : ℤ
deriving DecidableEq

/-- Day offset from 1970-01-01 of the proleptic-Gregorian civil date y-m-d
(the standard days-from-civil computation; note that `/` on ℤ here is
floor division, as the algorithm requires for the era). -/
def daysFromCivil (y : ℤ) (m d : ℕ) : ℤ :=
  let yy : ℤ := if m ≤ 2 then y - 1 else y
  let era : ℤ := yy / 400
  let yoe : ℤ := yy - era * 400
  let doy : ℤ := (153 * ((m : ℤ) + (if 2 < m then -3 else 9)) + 2) / 5 + (d : ℤ) - 1
  let doe : ℤ := yoe * 365 + yoe / 4 - yoe / 100 + doy
  era * 146097 + doe - 719468

/-- chrono `NaiveDate::from_ymd`.  It panics on an out-of-range date; every
call site in the sources passes a valid date (the fixed epoch, or fields read
back from a `NaiveDateTime`), and the parser below validates before calling. -/
def NaiveDate.from_ymd (y : ℤ) (m d : ℕ) : NaiveDate := ⟨daysFromCivil y m d⟩

def isLeapYear (y : ℤ) : Bool := (y % 4 == 0 && y % 100 != 0) || y % 400 == 0

def daysInMonth (y : ℤ) (m : ℕ) : ℕ :=
  if m = 2 then (if isLeapYear y then 29 else 28)
  else if m = 4 ∨ m = 6 ∨ m = 9 ∨ m = 11 then 30
  else 31

def validYmd (y : ℤ) (m d : ℕ) : Bool :=
  decide (1 ≤ m) && decide (m ≤ 12) && decide (1 ≤ d) && decide (d ≤ daysInMonth y m)

/-- Model of chrono `NaiveDateTime`. -/
structure NaiveDateTime where
  secs : ℤ
  nsecs : ℕ
deriving DecidableEq

/-- First day representable by a chrono date (January 1 of year -262144). -/
def chronoMinDays : ℤ := daysFromCivil (-262144) 1 1

/-- Last day representable by a chrono date (December 31 of year 262143). -/
def chronoMaxDays : ℤ := daysFromCivil 262143 12 31

/-- chrono `NaiveDateTime::from_timestamp`: panics (`none`) when the
nanosecond part is ≥ 2·10^9 or the day holding the timestamp falls outside
chrono's representable calendar. -/
def NaiveDateTime.from_timestamp (secs : ℤ) (nsecs : ℕ) : Option NaiveDateTime :=
  if chronoMinDays ≤ secs / 86400 ∧ secs / 86400 ≤ chronoMaxDays ∧ nsecs < 2000000000
  then some ⟨secs, nsecs⟩ else none

def NaiveDateTime.timestamp (t : NaiveDateTime) : ℤ := t.secs

def NaiveDateTime.timestamp_subsec_micros (t : NaiveDateTime) : ℕ := t.nsecs / 1000

def NaiveDateTime.timestamp_millis (t : NaiveDateTime) : ℤ :=
  t.secs * 1000 + (t.nsecs / 1000000 : ℕ)

def NaiveDateTime.timestamp_nanos (t : NaiveDateTime) : ℤ :=
  t.secs * 1000000000 + (t.nsecs : ℤ)

/-- The civil date of a datetime: chrono `.year()`, `.month()`, `.day()`
recombined through `NaiveDate::from_ymd`, exactly as the source composes
them; in the day-offset model this is the floor of the timestamp day. -/
def NaiveDateTime.date (t : NaiveDateTime) : NaiveDate := ⟨t.secs / 86400⟩

/-! ### `src/polars/src/chunked_array/temporal.rs`: unit conversions -/

/-- Number of seconds in a day. -/
def SECONDS_IN_DAY : ℤ := 86400

/-- Number of milliseconds in a second. -/
def MILLISECONDS_IN_SECOND : ℤ := 1000

/-- Number of microseconds in a second. -/
def MICROSECONDS_IN_SECOND : ℤ := 1000000

/-- Number of nanoseconds in a second. -/
def NANOSECONDS_IN_SECOND : ℤ := 1000000000

def date32_as_datetime (v : ℤ) : Option NaiveDateTime :=
  NaiveDateTime.from_timestamp (v * SECONDS_IN_DAY) 0

def date64_as_datetime (v : ℤ) : Option NaiveDateTime :=
  NaiveDateTime.from_timestamp (Int.tdiv v MILLISECONDS_IN_SECOND)
    (asU32 (Int.tmod v MILLISECONDS_IN_SECOND * MICROSECONDS_IN_SECOND))

def timestamp_nanoseconds_as_datetime (v : ℤ) : Option NaiveDateTime :=
  let seconds := Int.tdiv v 1000000000
  NaiveDateTime.from_timestamp seconds (asU32 (v - seconds * 1000000000))

def timestamp_microseconds_as_datetime (v : ℤ) : Option NaiveDateTime :=
  let seconds := Int.tdiv v 1000000
  NaiveDateTime.from_timestamp seconds (asU32 (v - seconds * 1000000))

def timestamp_milliseconds_as_datetime (v : ℤ) : Option NaiveDateTime :=
  let seconds := Int.tdiv v 1000
  NaiveDateTime.from_timestamp seconds (asU32 (v - seconds * 1000))

def timestamp_seconds_as_datetime (seconds : ℤ) : Option NaiveDateTime :=
  NaiveDateTime.from_timestamp seconds 0

def naive_datetime_to_date64 (v : NaiveDateTime) : ℤ := v.timestamp_millis

def naive_datetime_to_timestamp_nanoseconds (v : NaiveDateTime) : ℤ := v.timestamp_nanos

def naive_datetime_to_timestamp_microseconds (v : NaiveDateTime) : ℤ :=
  v.timestamp * 1000000 + (v.timestamp_subsec_micros : ℤ)

def naive_datetime_to_timestamp_milliseconds (v : NaiveDateTime) : ℤ := v.timestamp_millis

def naive_datetime_to_timestamp_seconds (v : NaiveDateTime) : ℤ := v.timestamp

def naive_time_to_time64_nanoseconds (v : NaiveTime) : ℤ :=
  (v.hour : ℤ) * 3600 * NANOSECONDS_IN_SECOND
    + (v.minute : ℤ) * 60 * NANOSECONDS_IN_SECOND
    + (v.second : ℤ) * NANOSECONDS_IN_SECOND
    + (v.nanosecond : ℤ)

def naive_time_to_time64_microseconds (v : NaiveTime) : ℤ :=
  (v.hour : ℤ) * 3600 * MICROSECONDS_IN_SECOND
    + (v.minute : ℤ) * 60 * MICROSECONDS_IN_SECOND
    + (v.second : ℤ) * MICROSECONDS_IN_SECOND
    + Int.tdiv (v.nanosecond : ℤ) 1000

def naive_time_to_time32_milliseconds (v : NaiveTime) : ℤ :=
  (v.hour : ℤ) * 3600 * MILLISECONDS_IN_SECOND
    + (v.minute : ℤ) * 60 * MILLISECONDS_IN_SECOND
    + (v.second : ℤ) * MILLISECONDS_IN_SECOND
    + Int.tdiv (v.nanosecond : ℤ) 1000000

def naive_time_to_time32_seconds (v : NaiveTime) : ℤ :=
  (v.hour : ℤ) * 3600 + (v.minute : ℤ) * 60 + (v.second : ℤ) + (v.nanosecond : ℤ)

def time64_nanosecond_as_time (v : ℤ) : Option NaiveTime :=
  NaiveTime.from_num_seconds_from_midnight
    (asU32 (Int.tdiv v NANOSECONDS_IN_SECOND))
    (asU32 (Int.tmod v NANOSECONDS_IN_SECOND))

def time64_microsecond_as_time (v : ℤ) : Option NaiveTime :=
  NaiveTime.from_num_seconds_from_midnight
    (asU32 (Int.tdiv v MICROSECONDS_IN_SECOND))
    (asU32 (Int.tmod v MICROSECONDS_IN_SECOND * MILLISECONDS_IN_SECOND))

def time32_second_as_time (v : ℤ) : Option NaiveTime :=
  NaiveTime.from_num_seconds_from_midnight (asU32 v) 0

def time32_millisecond_as_time (v : ℤ) : Option NaiveTime :=
  let w := asU32 v
  NaiveTime.from_num_seconds_from_midnight (w / 1000) (w % 1000 * 1000000)

def unix_time : Option NaiveDateTime := NaiveDateTime.from_timestamp 0 0

def naive_date_to_date32 (nd : NaiveDate) (unixTime : NaiveDate) : ℤ :=
  asI32 (nd.days - unixTime.days)

def unix_time_naive_date : NaiveDate := NaiveDate.from_ymd 1970 1 1

/-! ### Model of chrono `parse_from_str`

The sources call `NaiveTime::parse_from_str`, `NaiveDate::parse_from_str` and
`NaiveDateTime::parse_from_str` (external chrono functions), always through a
caller-supplied format string.  The model below implements chrono's behavior
for the numeric format tokens the repository's spec and tests exercise
(`%Y`, `%m`, `%d`, `%H`, `%M`, `%S`) and literal characters: each numeric
token greedily consumes up to its width in digits, the whole input must be
consumed, and the collected fields must form a valid time/date/datetime.
A format holding any other `%` token makes the parse fail (a conservative
under-approximation of chrono's token vocabulary; no claim depends on other
tokens). -/

structure ParsedFields where
  year : Option ℕ
  month : Option ℕ
  day : Option ℕ
  hour : Option ℕ
  minute : Option ℕ
  second : Option ℕ
deriving DecidableEq

def ParsedFields.empty : ParsedFields := ⟨none, none, none, none, none, none⟩

/-- Split off up to `w` leading decimal digits. -/
def takeDigits : ℕ → List Char → List Char × List Char
  | 0, s => ([], s)
  | _ + 1, [] => ([], [])
  | w + 1, c :: cs =>
    if c.isDigit then
      let p := takeDigits w cs
      (c :: p.1, p.2)
    else ([], c :: cs)

def digitsVal (ds : List Char) : ℕ := ds.foldl (fun a c => a * 10 + (c.toNat - 48)) 0

/-- Read a number of at least one and at most `w` digits. -/
def scanNum (w : ℕ) (s : List Char) : Option (ℕ × List Char) :=
  let p := takeDigits w s
  if p.1 = [] then none else some (digitsVal p.1, p.2)

def isFieldChar (c : Char) : Bool :=
  c = 'Y' || c = 'm' || c = 'd' || c = 'H' || c = 'M' || c = 'S'

def fieldWidth (c : Char) : ℕ := if c = 'Y' then 4 else 2

def setField (p : ParsedFields) (c : Char) (n : ℕ) : ParsedFields :=
  if c = 'Y' then { p with year := some n }
  else if c = 'm' then { p with month := some n }
  else if c = 'd' then { p with day := some n }
  else if c = 'H' then { p with hour := some n }
  else if c = 'M' then { p with minute := some n }
  else { p with second := some n }

def runFormat : List Char → List Char → ParsedFields → Option ParsedFields
  | [], inp, p => if inp = [] then some p else none
  | '%' :: rest, inp, p =>
    match rest with
    | [] => none
    | f :: fs =>
      if isFieldChar f then
        match scanNum (fieldWidth f) inp with
        | none => none
        | some (n, inp2) => runFormat fs inp2 (setField p f n)
      else none
  | c :: fs, inp, p =>
    match inp with
    | [] => none
    | i :: is2 => if c = i then runFormat fs is2 p else none

def parse_naive_time_from_str (s fmt : String) : Option NaiveTime :=
  match runFormat fmt.toList s.toList ParsedFields.empty with
  | none => none
  | some p =>
    match p.hour, p.minute with
    | some h, some m =>
      let sec := p.second.getD 0
      if h < 24 ∧ m < 60 ∧ sec < 60 then some ⟨h * 3600 + m * 60 + sec, 0⟩ else none
    | _, _ => none

def parse_naive_date_from_str (s fmt : String) : Option NaiveDate :=
  match runFormat fmt.toList s.toList ParsedFields.empty with
  | none => none
  | some p =>
    match p.year, p.month, p.day with
    | some y, some m, some d =>
      if validYmd (y : ℤ) m d then some (NaiveDate.from_ymd (y : ℤ) m d) else none
    | _, _, _ => none

def parse_naive_datetime_from_str (s fmt : String) : Option NaiveDateTime :=
  match runFormat fmt.toList s.toList ParsedFields.empty with
  | none => none
  | some p =>
    match p.year, p.month, p.day, p.hour, p.minute with
    | some y, some m, some d, some h, some mi =>
      let sec := p.second.getD 0
      if validYmd (y : ℤ) m d ∧ h < 24 ∧ mi < 60 ∧ sec < 60 then
        some ⟨daysFromCivil (y : ℤ) m d * 86400 + ((h * 3600 + mi * 60 + sec : ℕ) : ℤ), 0⟩
      else none
    | _, _, _, _, _ => none

/-! ### `ChunkedArray` and the per-type conversion impls

For the cited code only the column name and the logical sequence of optional
values matter: both constructors used here build a single chunk whose validity
bitmap marks exactly the `none` entries.  Each `def` below corresponds to one
instantiation of the source's `impl_from_naive_*` macros. -/

structure ChunkedArray (α : Type) where
  name : String
  data : List (Option α)
deriving DecidableEq

def ChunkedArray.new_from_aligned_vec {α : Type} (name : String) (v : List α) :
    ChunkedArray α :=
  ⟨name, v.map some⟩

def ChunkedArray.new_from_opt_iter {α : Type} (name : String) (v : List (Option α)) :
    ChunkedArray α :=
  ⟨name, v⟩

def Time64NanosecondChunked.new_from_naive_time (name : String) (v : List NaiveTime) :
    ChunkedArray ℤ :=
  ChunkedArray.new_from_aligned_vec name (v.map naive_time_to_time64_nanoseconds)

def Time64NanosecondChunked.parse_from_str_slice (name : String) (v : List String)
    (fmt : String) : ChunkedArray ℤ :=
  ChunkedArray.new_from_opt_iter name
    (v.map fun s => (parse_naive_time_from_str s fmt).map naive_time_to_time64_nanoseconds)

def TimestampMillisecondChunked.parse_from_str_slice (name : String) (v : List String)
    (fmt : String) : ChunkedArray ℤ :=
  ChunkedArray.new_from_opt_iter name
    (v.map fun s =>
      (parse_naive_datetime_from_str s fmt).map naive_datetime_to_timestamp_milliseconds)

def Date32Chunked.parse_from_str_slice (name : String) (v : List String)
    (fmt : String) : ChunkedArray ℤ :=
  let unix_date := unix_time_naive_date
  ChunkedArray.new_from_opt_iter name
    (v.map fun s =>
      (parse_naive_date_from_str s fmt).map fun d => naive_date_to_date32 d unix_date)

/-! ### The polars lazy core consumed by `src/py-polars/src/lazy/dataframe.rs`

`polars::lazy::frame::{LazyFrame, LazyGroupBy}` and the expression type are
repository code that is not under `src/` (only their binding-layer callers
are), so they are modelled from the spec. -/

/-- Modelled from the spec: the expression tree (§3), "a finite tree over
variants ColumnRef(name), Literal(value), BinaryOp(op, left, right),
UnaryOp(op, operand), Aggregate(kind, operand), Alias(name, inner)". -/
inductive Expr where
  | columnRef : String → Expr
  | literal : ℤ → Expr
  | binaryOp : String → Expr → Expr → Expr
  | unaryOp : String → Expr → Expr
  | aggregate : String → Expr → Expr
  | alias : String → Expr → Expr
deriving DecidableEq

/-- Modelled from the spec: the logical plan node (§3), the "immutable, tagged
union over Scan, Filter, Projection, GroupBy, Join, Sort" plus the node built
by the spec's `with_column(s)` builder methods (§4.4). -/
inductive LogicalPlan where
  | scan : String → LogicalPlan
  | filter : Expr → LogicalPlan → LogicalPlan
  | projection : List Expr → LogicalPlan → LogicalPlan
  | groupByAgg : List String → List Expr → LogicalPlan → LogicalPlan
  | join : String → LogicalPlan → LogicalPlan → Expr → Expr → LogicalPlan
  | sort : String → Bool → LogicalPlan → LogicalPlan
  | withColumns : List Expr → LogicalPlan → LogicalPlan
deriving DecidableEq

/-- Modelled from the spec: a `LazyFrame` holds the logical plan built so far
together with the three optimizer toggles (§4.5). -/
structure LazyFrame where
  logicalPlan : LogicalPlan
  typeCoercion : Bool
  predicatePushdown : Bool
  projectionPushdown : Bool
deriving DecidableEq

/-- Modelled from the spec: `groupby(keys)` returns "a pending group handle
that only becomes a full plan once `.agg(expressions)` is supplied" (§4.4). -/
structure LazyGroupBy where
  keys : List String
  frame : LazyFrame
deriving DecidableEq

/-- Modelled from the spec (§4.4): each builder method wraps the current plan
in the corresponding node and returns the new frame. -/
def LazyFrame.filter (lf : LazyFrame) (predicate : Expr) : LazyFrame :=
  { lf with logicalPlan := .filter predicate lf.logicalPlan }

def LazyFrame.select (lf : LazyFrame) (exprs : List Expr) : LazyFrame :=
  { lf with logicalPlan := .projection exprs lf.logicalPlan }

def LazyFrame.sort (lf : LazyFrame) (by_column : String) (reverse : Bool) : LazyFrame :=
  { lf with logicalPlan := .sort by_column reverse lf.logicalPlan }

def LazyFrame.with_column (lf : LazyFrame) (expr : Expr) : LazyFrame :=
  { lf with logicalPlan := .withColumns [expr] lf.logicalPlan }

def LazyFrame.with_columns (lf : LazyFrame) (exprs : List Expr) : LazyFrame :=
  { lf with logicalPlan := .withColumns exprs lf.logicalPlan }

def LazyFrame.groupby (lf : LazyFrame) (by_cols : List String) : LazyGroupBy :=
  ⟨by_cols, lf⟩

def LazyGroupBy.agg (lgb : LazyGroupBy) (aggs : List Expr) : LazyFrame :=
  { lgb.frame with logicalPlan := .groupByAgg lgb.keys aggs lgb.frame.logicalPlan }

def LazyFrame.inner_join (lf : LazyFrame) (other : LazyFrame)
    (left_on right_on : Expr) : LazyFrame :=
  { lf with logicalPlan := .join "inner" lf.logicalPlan other.logicalPlan left_on right_on }

def LazyFrame.outer_join (lf : LazyFrame) (other : LazyFrame)
    (left_on right_on : Expr) : LazyFrame :=
  { lf with logicalPlan := .join "outer" lf.logicalPlan other.logicalPlan left_on right_on }

def LazyFrame.left_join (lf : LazyFrame) (other : LazyFrame)
    (left_on right_on : Expr) : LazyFrame :=
  { lf with logicalPlan := .join "left" lf.logicalPlan other.logicalPlan left_on right_on }

def LazyFrame.with_type_coercion_optimization (lf : LazyFrame) (b : Bool) : LazyFrame :=
  { lf with typeCoercion := b }

def LazyFrame.with_predicate_pushdown_optimization (lf : LazyFrame) (b : Bool) : LazyFrame :=
  { lf with predicatePushdown := b }

def LazyFrame.with_projection_pushdown_optimization (lf : LazyFrame) (b : Bool) : LazyFrame :=
  { lf with projectionPushdown := b }

/-- Modelled from the spec: rendering "a human-readable description of itself
... without executing it" (§4.5); a straightforward recursive rendering. -/
def LogicalPlan.describe : LogicalPlan → String
  | .scan src => "SCAN " ++ src
  | .filter _ inp => "FILTER FROM " ++ inp.describe
  | .projection es inp => "SELECT " ++ toString es.length ++ " FROM " ++ inp.describe
  | .groupByAgg ks es inp =>
      "AGG " ++ toString es.length ++ " BY " ++ toString ks.length ++ " FROM " ++ inp.describe
  | .join kind l r _ _ => "JOIN " ++ kind ++ " " ++ l.describe ++ " AND " ++ r.describe
  | .sort c _ inp => "SORT BY " ++ c ++ " FROM " ++ inp.describe
  | .withColumns es inp => "WITH " ++ toString es.length ++ " FROM " ++ inp.describe

def LazyFrame.describe_plan (lf : LazyFrame) : String := lf.logicalPlan.describe

/-- Modelled from the spec: each optimizer pass is a best-effort, total,
idempotent plan-to-plan rewrite that may leave the plan unchanged (§4.5, §7);
the claims settled here concern only the binding layer's handle discipline,
so the composite rewrite is taken to be the trivial one. -/
def LazyFrame.optimizedPlan (lf : LazyFrame) : LogicalPlan := lf.logicalPlan

def LazyFrame.describe_optimized_plan (lf : LazyFrame) : Except String String :=
  .ok lf.optimizedPlan.describe

/-- Modelled from the spec: `collect()` lowers the optimized plan and executes
it, producing a DataFrame or a single terminal error (§4.6, §7).  Execution is
outside the sources under verification; the materialized result is abstracted
by the plan that was executed. -/
def LazyFrame.collect (lf : LazyFrame) : Except String LogicalPlan :=
  .ok lf.optimizedPlan

/-! ### `src/py-polars/src/lazy/dataframe.rs`: the binding-layer handles

`PyLazyFrame`/`PyLazyGroupBy` hold `Option<LazyFrame>`/`Option<LazyGroupBy>`
("option because we cannot get a self by value in pyo3").  A `&mut self`
method is embedded as a state transformer `State → Option (State × result)`:
the returned state is the receiver after the call, and `none` is the panic of
`.take().unwrap()` on an already-emptied handle.  A `&self` method returns
the receiver unchanged, reflecting the shared borrow. -/

structure PyExpr where
  inner : Expr
deriving DecidableEq

def py_exprs_to_exprs (exprs : List PyExpr) : List Expr := exprs.map PyExpr.inner

structure PyLazyFrame where
  ldf : Option LazyFrame
deriving DecidableEq

structure PyLazyGroupBy where
  lgb : Option LazyGroupBy
deriving DecidableEq

def PyLazyFrame.fromLazyFrame (ldf : LazyFrame) : PyLazyFrame := ⟨some ldf⟩

def PyLazyGroupBy.agg (self : PyLazyGroupBy) (aggs : List PyExpr) :
    Option (PyLazyGroupBy × PyLazyFrame) :=
  match self.lgb with
  | none => none
  | some lgb => some (⟨none⟩, .fromLazyFrame (lgb.agg (py_exprs_to_exprs aggs)))

def PyLazyFrame.describe_plan (self : PyLazyFrame) : Option (PyLazyFrame × String) :=
  match self.ldf with
  | none => none
  | some ldf => some (self, ldf.describe_plan)

def PyLazyFrame.describe_optimized_plan (self : PyLazyFrame) :
    Option (PyLazyFrame × Except String String) :=
  match self.ldf with
  | none => none
  | some ldf => some (self, ldf.describe_optimized_plan)

def PyLazyFrame.optimization_toggle (self : PyLazyFrame)
    (type_coercion predicate_pushdown projection_pushdown : Bool) :
    Option (PyLazyFrame × PyLazyFrame) :=
  match self.ldf with
  | none => none
  | some ldf =>
    some (⟨none⟩, .fromLazyFrame
      (((ldf.with_type_coercion_optimization type_coercion).with_predicate_pushdown_optimization
          predicate_pushdown).with_projection_pushdown_optimization projection_pushdown))

def PyLazyFrame.sort (self : PyLazyFrame) (by_column : String) (reverse : Bool) :
    Option (PyLazyFrame × PyLazyFrame) :=
  match self.ldf with
  | none => none
  | some ldf => some (⟨none⟩, .fromLazyFrame (ldf.sort by_column reverse))

def PyLazyFrame.collect (self : PyLazyFrame) :
    Option (PyLazyFrame × Except String LogicalPlan) :=
  match self.ldf with
  | none => none
  | some ldf => some (⟨none⟩, ldf.collect)

def PyLazyFrame.filter (self : PyLazyFrame) (predicate : PyExpr) :
    Option (PyLazyFrame × PyLazyFrame) :=
  match self.ldf with
  | none => none
  | some ldf => some (⟨none⟩, .fromLazyFrame (ldf.filter predicate.inner))

def PyLazyFrame.select (self : PyLazyFrame) (exprs : List PyExpr) :
    Option (PyLazyFrame × PyLazyFrame) :=
  match self.ldf with
  | none => none
  | some ldf => some (⟨none⟩, .fromLazyFrame (ldf.select (py_exprs_to_exprs exprs)))

def PyLazyFrame.groupby (self : PyLazyFrame) (by_cols : List String) :
    Option (PyLazyFrame × PyLazyGroupBy) :=
  match self.ldf with
  | none => none
  | some ldf => some (⟨none⟩, ⟨some (ldf.groupby by_cols)⟩)

def PyLazyFrame.inner_join (self other : PyLazyFrame) (left_on right_on : PyExpr) :
    Option (PyLazyFrame × PyLazyFrame × PyLazyFrame) :=
  match self.ldf with
  | none => none
  | some ldf =>
    match other.ldf with
    | none => none
    | some o =>
      some (⟨none⟩, ⟨none⟩, .fromLazyFrame (ldf.inner_join o left_on.inner right_on.inner))

def PyLazyFrame.outer_join (self other : PyLazyFrame) (left_on right_on : PyExpr) :
    Option (PyLazyFrame × PyLazyFrame × PyLazyFrame) :=
  match self.ldf with
  | none => none
  | some ldf =>
    match other.ldf with
    | none => none
    | some o =>
      some (⟨none⟩, ⟨none⟩, .fromLazyFrame (ldf.outer_join o left_on.inner right_on.inner))

def PyLazyFrame.left_join (self other : PyLazyFrame) (left_on right_on : PyExpr) :
    Option (PyLazyFrame × PyLazyFrame × PyLazyFrame) :=
  match self.ldf with
  | none => none
  | some ldf =>
    match other.ldf with
    | none => none
    | some o =>
      some (⟨none⟩, ⟨none⟩, .fromLazyFrame (ldf.left_join o left_on.inner right_on.inner))

def PyLazyFrame.with_column (self : PyLazyFrame) (expr : PyExpr) :
    Option (PyLazyFrame × PyLazyFrame) :=
  match self.ldf with
  | none => none
  | some ldf => some (⟨none⟩, .fromLazyFrame (ldf.with_column expr.inner))

def PyLazyFrame.with_columns (self : PyLazyFrame) (exprs : List PyExpr) :
    Option (PyLazyFrame × PyLazyFrame) :=
  match self.ldf with
  | none => none
  | some ldf => some (⟨none⟩, .fromLazyFrame (ldf.with_columns (py_exprs_to_exprs exprs)))

/-! ### `src/py-polars/src/file.rs`: the foreign I/O adapter

The foreign error object is modelled by what `pyerr_to_io_err` observes of it:
whether calling its dunder string method succeeds and whether that result
extracts to a Rust `String`.  Each method of the wrapped foreign object either
raises such an error or returns its result; the bytes object returned by a
foreign read and the number objects returned by write/seek carry their own
fallible accessors (`PyBytes::len`, `extract`), exactly the fallible steps the
source maps through `pyerr_to_io_err`.  The `cast_as::<PyBytes>` downcast in
`read` is an `expect` (assertion), not an error translation, so the model has
the bytes object directly. -/

inductive PyStrReprResult where
  | reprOk : String → PyStrReprResult
  | notAString : PyStrReprResult
  | raisesErr : PyStrReprResult
deriving DecidableEq

structure PyErr where
  strRepr : PyStrReprResult
deriving DecidableEq

inductive IoErrorKind where
  | other
deriving DecidableEq

/-- Model of `std::io::Error` as the source builds it: a kind and a textual
message. -/
structure IoError where
  kind : IoErrorKind
  msg : String
deriving DecidableEq

def pyerr_to_io_err (e : PyErr) : IoError :=
  match e.strRepr with
  | .reprOk s => ⟨.other, s⟩
  | .notAString => ⟨.other, "An unknown error has occurred"⟩
  | .raisesErr => ⟨.other, "Err doesn\x27t have __str__"⟩

/-- A foreign bytes object: its byte payload and its fallible `len()`. -/
structure PyBytesObj where
  byteData : List ℕ
  lenResult : Except PyErr ℕ

/-- A foreign object the source numerically `extract`s from. -/
structure PyNumObj where
  extractResult : Except PyErr ℤ

/-- The wrapped foreign file-like object: each named method either raises or
returns its result object. -/
structure PyFileInner where
  readMethod : ℕ → Except PyErr PyBytesObj
  writeMethod : List ℕ → Except PyErr PyNumObj
  seekMethod : ℤ → ℕ → Except PyErr PyNumObj
  flushMethod : Except PyErr Unit

structure PyFileLikeObject where
  inner : PyFileInner

inductive SeekFrom where
  | start : ℕ → SeekFrom
  | current : ℤ → SeekFrom
  | fromEnd : ℤ → SeekFrom
deriving DecidableEq

/-- `impl Read for PyFileLikeObject`: calls the foreign `read(buf.len())`,
copies the returned bytes into the buffer (the slice writer cannot fail), and
returns the bytes object's fallible `len()`.  The result models (bytes copied,
returned count). -/
def PyFileLikeObject.read (o : PyFileLikeObject) (bufLen : ℕ) :
    Except IoError (List ℕ × ℕ) :=
  match o.inner.readMethod bufLen with
  | .error e => .error (pyerr_to_io_err e)
  | .ok bytes =>
    match bytes.lenResult with
    | .error e => .error (pyerr_to_io_err e)
    | .ok n => .ok (bytes.byteData, n)

/-- `impl Write for PyFileLikeObject::write`: calls the foreign `write(bytes)`
and extracts the returned count. -/
def PyFileLikeObject.write (o : PyFileLikeObject) (buf : List ℕ) :
    Except IoError ℤ :=
  match o.inner.writeMethod buf with
  | .error e => .error (pyerr_to_io_err e)
  | .ok numObj =>
    match numObj.extractResult with
    | .error e => .error (pyerr_to_io_err e)
    | .ok n => .ok n

/-- `impl Write for PyFileLikeObject::flush`: calls the foreign `flush()` and
discards the result. -/
def PyFileLikeObject.flush (o : PyFileLikeObject) : Except IoError Unit :=
  match o.inner.flushMethod with
  | .error e => .error (pyerr_to_io_err e)
  | .ok _ => .ok ()

/-- `impl Seek for PyFileLikeObject`: translates `SeekFrom` into the foreign
(offset, whence) pair, calls the foreign `seek` and extracts the returned
position. -/
def PyFileLikeObject.seek (o : PyFileLikeObject) (pos : SeekFrom) :
    Except IoError ℤ :=
  let p : ℕ × ℤ :=
    match pos with
    | .start i => (0, (i : ℤ))
    | .current i => (1, i)
    | .fromEnd i => (2, i)
  match o.inner.seekMethod p.2 p.1 with
  | .error e => .error (pyerr_to_io_err e)
  | .ok numObj =>
    match numObj.extractResult with
    | .error e => .error (pyerr_to_io_err e)
    | .ok n => .ok n

/-- The (whence, offset) translation `Seek for PyFileLikeObject` performs. -/
def seekWhence : SeekFrom → ℕ
  | .start _ => 0
  | .current _ => 1
  | .fromEnd _ => 2

def seekOffset : SeekFrom → ℤ
  | .start i => (i : ℤ)
  | .current i => i
  | .fromEnd i => i

/-! ### Helper lemmas -/

lemma seek_eq (o : PyFileLikeObject) (pos : SeekFrom) :
    PyFileLikeObject.seek o pos =
      match o.inner.seekMethod (seekOffset pos) (seekWhence pos) with
      | .error e => .error (pyerr_to_io_err e)
      | .ok numObj =>
        match numObj.extractResult with
        | .error e => .error (pyerr_to_io_err e)
        | .ok n => .ok n := by
  cases pos <;> rfl

lemma asU32_cast (x : ℤ) : (asU32 x : ℤ) = x % 4294967296 := by
  unfold asU32
  exact Int.toNat_of_nonneg (Int.emod_nonneg x (by norm_num))

lemma asU32_eq_of_bounds {x : ℤ} (h0 : 0 ≤ x) (h1 : x < 4294967296) : (asU32 x : ℤ) = x := by
  rw [asU32_cast, Int.emod_eq_of_lt h0 h1]

lemma asU32_eq_add_of_neg {x : ℤ} (h0 : -4294967296 ≤ x) (h1 : x < 0) :
    (asU32 x : ℤ) = x + 4294967296 := by
  rw [asU32_cast]
  omega

lemma asI32_eq {x : ℤ} (h0 : -2147483648 ≤ x) (h1 : x < 2147483648) : asI32 x = x := by
  unfold asI32
  omega

lemma tmod_lower (v : ℤ) {b : ℤ} (hb : 0 < b) : -b < Int.tmod v b := by
  rcases le_or_lt 0 v with h | h
  · have := Int.tmod_nonneg b h
    omega
  · have e1 := Int.tdiv_add_tmod v b
    have e2 := Int.tdiv_add_tmod (-v) b
    rw [Int.neg_tdiv, mul_neg] at e2
    have h3 := Int.tmod_lt_of_pos (-v) hb
    omega

lemma from_timestamp_inv {s : ℤ} {n : ℕ} {t : NaiveDateTime}
    (h : NaiveDateTime.from_timestamp s n = some t) :
    t.secs = s ∧ t.nsecs = n ∧ n < 2000000000
      ∧ chronoMinDays ≤ s / 86400 ∧ s / 86400 ≤ chronoMaxDays := by
  unfold NaiveDateTime.from_timestamp at h
  split_ifs at h with hc
  injection h with h
  subst h
  exact ⟨rfl, rfl, hc.2.2, hc.1, hc.2.1⟩

lemma from_num_seconds_inv {s n : ℕ} {t : NaiveTime}
    (h : NaiveTime.from_num_seconds_from_midnight s n = some t) :
    t.secs = s ∧ t.frac = n ∧ s < 86400 ∧ n < 2000000000 := by
  unfold NaiveTime.from_num_seconds_from_midnight at h
  split_ifs at h with hc
  injection h with h
  subst h
  exact ⟨rfl, rfl, hc.1, hc.2⟩

lemma time64_nanosecond_roundtrip (v : ℤ) (h0 : 0 ≤ v) (h1 : v < 86400000000000) :
    (time64_nanosecond_as_time v).map naive_time_to_time64_nanoseconds = some v := by
  have ha : (asU32 (v / 1000000000) : ℤ) = v / 1000000000 :=
    asU32_eq_of_bounds (by omega) (by omega)
  have hb : (asU32 (v % 1000000000) : ℤ) = v % 1000000000 :=
    asU32_eq_of_bounds (by omega) (by omega)
  unfold time64_nanosecond_as_time NaiveTime.from_num_seconds_from_midnight
    NANOSECONDS_IN_SECOND
  rw [Int.tdiv_eq_ediv h0 (by norm_num), Int.tmod_eq_emod h0 (by norm_num),
    if_pos (by omega)]
  simp only [Option.map_some', Option.some.injEq, naive_time_to_time64_nanoseconds,
    NaiveTime.hour, NaiveTime.minute, NaiveTime.second, NaiveTime.nanosecond,
    NANOSECONDS_IN_SECOND]
  omega

lemma time64_microsecond_roundtrip (v : ℤ) (h0 : 0 ≤ v) (h1 : v < 86400000000) :
    (time64_microsecond_as_time v).map naive_time_to_time64_microseconds = some v := by
  have ha : (asU32 (v / 1000000) : ℤ) = v / 1000000 :=
    asU32_eq_of_bounds (by omega) (by omega)
  have hb : (asU32 (v % 1000000 * 1000) : ℤ) = v % 1000000 * 1000 :=
    asU32_eq_of_bounds (by omega) (by omega)
  unfold time64_microsecond_as_time NaiveTime.from_num_seconds_from_midnight
    MICROSECONDS_IN_SECOND MILLISECONDS_IN_SECOND
  rw [Int.tdiv_eq_ediv h0 (by norm_num), Int.tmod_eq_emod h0 (by norm_num),
    if_pos (by omega)]
  simp only [Option.map_some', Option.some.injEq, naive_time_to_time64_microseconds,
    NaiveTime.hour, NaiveTime.minute, NaiveTime.second, NaiveTime.nanosecond,
    MICROSECONDS_IN_SECOND]
  rw [Int.tdiv_eq_ediv (Int.natCast_nonneg _) (by norm_num)]
  omega

lemma time32_millisecond_roundtrip (v : ℤ) (h0 : 0 ≤ v) (h1 : v < 86400000) :
    (time32_millisecond_as_time v).map naive_time_to_time32_milliseconds = some v := by
  have ha : (asU32 v : ℤ) = v := asU32_eq_of_bounds (by omega) (by omega)
  rw [show time32_millisecond_as_time v
      = NaiveTime.from_num_seconds_from_midnight (asU32 v / 1000) (asU32 v % 1000 * 1000000)
      from rfl]
  unfold NaiveTime.from_num_seconds_from_midnight
  rw [if_pos (by omega)]
  simp only [Option.map_some', Option.some.injEq, naive_time_to_time32_milliseconds,
    NaiveTime.hour, NaiveTime.minute, NaiveTime.second, NaiveTime.nanosecond,
    MILLISECONDS_IN_SECOND]
  rw [Int.tdiv_eq_ediv (Int.natCast_nonneg _) (by norm_num)]
  omega

lemma time32_second_roundtrip (v : ℤ) (h0 : 0 ≤ v) (h1 : v < 86400) :
    (time32_second_as_time v).map naive_time_to_time32_seconds = some v := by
  have ha : (asU32 v : ℤ) = v := asU32_eq_of_bounds (by omega) (by omega)
  unfold time32_second_as_time NaiveTime.from_num_seconds_from_midnight
  rw [if_pos (by omega)]
  simp only [Option.map_some', Option.some.injEq, naive_time_to_time32_seconds,
    NaiveTime.hour, NaiveTime.minute, NaiveTime.second, NaiveTime.nanosecond]
  omega

lemma date64_roundtrip (v : ℤ) (t : NaiveDateTime) (h : date64_as_datetime v = some t) :
    naive_datetime_to_date64 t = v := by
  unfold date64_as_datetime MILLISECONDS_IN_SECOND MICROSECONDS_IN_SECOND at h
  obtain ⟨hs, hn, hlt, -, -⟩ := from_timestamp_inv h
  unfold naive_datetime_to_date64 NaiveDateTime.timestamp_millis
  have e1 := Int.tdiv_add_tmod v 1000
  have e2 := Int.tmod_lt_of_pos v (show (0:ℤ) < 1000 by norm_num)
  have e3 := tmod_lower v (show (0:ℤ) < 1000 by norm_num)
  rw [hs, hn, Int.natCast_div]
  rcases le_or_lt 0 (Int.tmod v 1000) with hr | hr
  · rw [asU32_eq_of_bounds (by omega) (by omega)]
    omega
  · exfalso
    have hb : (asU32 (Int.tmod v 1000 * 1000000) : ℤ)
        = Int.tmod v 1000 * 1000000 + 4294967296 :=
      asU32_eq_add_of_neg (by omega) (by omega)
    omega

lemma timestamp_nanoseconds_roundtrip (v : ℤ) (t : NaiveDateTime)
    (h : timestamp_nanoseconds_as_datetime v = some t) :
    naive_datetime_to_timestamp_nanoseconds t = v := by
  rw [show timestamp_nanoseconds_as_datetime v
      = NaiveDateTime.from_timestamp (Int.tdiv v 1000000000)
          (asU32 (v - Int.tdiv v 1000000000 * 1000000000)) from rfl] at h
  obtain ⟨hs, hn, hlt, -, -⟩ := from_timestamp_inv h
  unfold naive_datetime_to_timestamp_nanoseconds NaiveDateTime.timestamp_nanos
  have e1 := Int.tdiv_add_tmod v 1000000000
  have e2 := Int.tmod_lt_of_pos v (show (0:ℤ) < 1000000000 by norm_num)
  have e3 := tmod_lower v (show (0:ℤ) < 1000000000 by norm_num)
  have harg : v - Int.tdiv v 1000000000 * 1000000000 = Int.tmod v 1000000000 := by omega
  rw [hs, hn, harg]
  rcases le_or_lt 0 (Int.tmod v 1000000000) with hr | hr
  · rw [asU32_eq_of_bounds (by omega) (by omega)]
    omega
  · exfalso
    rw [harg] at hlt
    have hlt2 : ((asU32 (Int.tmod v 1000000000) : ℕ) : ℤ) < 2000000000 := by exact_mod_cast hlt
    rw [asU32_eq_add_of_neg (by omega) (by omega)] at hlt2
    omega

lemma timestamp_seconds_roundtrip (v : ℤ) (t : NaiveDateTime)
    (h : timestamp_seconds_as_datetime v = some t) :
    naive_datetime_to_timestamp_seconds t = v := by
  unfold timestamp_seconds_as_datetime at h
  obtain ⟨hs, -, -, -, -⟩ := from_timestamp_inv h
  unfold naive_datetime_to_timestamp_seconds NaiveDateTime.timestamp
  exact hs

lemma date32_roundtrip (v : ℤ) (t : NaiveDateTime) (h : date32_as_datetime v = some t) :
    naive_date_to_date32 t.date unix_time_naive_date = v := by
  unfold date32_as_datetime SECONDS_IN_DAY at h
  obtain ⟨hs, -, -, hlo, hhi⟩ := from_timestamp_inv h
  have hv : v * 86400 / 86400 = v := by omega
  rw [hv] at hlo hhi
  have hmin : chronoMinDays = -96465658 := by decide
  have hmax : chronoMaxDays = 95026601 := by decide
  have hdate : t.date = ⟨v⟩ := by
    unfold NaiveDateTime.date
    rw [hs]
    congr 1
  rw [hdate]
  unfold naive_date_to_date32
  show asI32 (v - unix_time_naive_date.days) = v
  have hu : unix_time_naive_date.days = 0 := by decide
  rw [hu, sub_zero]
  exact asI32_eq (by omega) (by omega)



/-! ### Handle-discipline helper predicates and sample values -/

/-- Every builder call on `h` fails fast (`none`, the embedded panic of
`take().unwrap()`), including when `h` is the right-hand side of a join. -/
def builderCallsFail (h : PyLazyFrame) : Prop :=
  (∀ e, h.filter e = none) ∧
  (∀ es, h.select es = none) ∧
  (∀ c r, h.sort c r = none) ∧
  (∀ e, h.with_column e = none) ∧
  (∀ es, h.with_columns es = none) ∧
  (∀ ks, h.groupby ks = none) ∧
  (∀ g l r, h.inner_join g l r = none) ∧
  (∀ g l r, h.outer_join g l r = none) ∧
  (∀ g l r, h.left_join g l r = none) ∧
  (∀ s l r, PyLazyFrame.inner_join s h l r = none) ∧
  (∀ s l r, PyLazyFrame.outer_join s h l r = none) ∧
  (∀ s l r, PyLazyFrame.left_join s h l r = none) ∧
  (∀ a b c, h.optimization_toggle a b c = none) ∧
  h.collect = none

/-- Every builder call on `h` succeeds (the take of the plan does not panic). -/
def builderCallsSucceed (h : PyLazyFrame) : Prop :=
  (∀ e, (h.filter e).isSome = true) ∧
  (∀ es, (h.select es).isSome = true) ∧
  (∀ c r, (h.sort c r).isSome = true) ∧
  (∀ e, (h.with_column e).isSome = true) ∧
  (∀ es, (h.with_columns es).isSome = true) ∧
  (∀ ks, (h.groupby ks).isSome = true) ∧
  (∀ g q l r, g.ldf = some q → (h.inner_join g l r).isSome = true) ∧
  (∀ g q l r, g.ldf = some q → (h.outer_join g l r).isSome = true) ∧
  (∀ g q l r, g.ldf = some q → (h.left_join g l r).isSome = true) ∧
  (∀ a b c, (h.optimization_toggle a b c).isSome = true) ∧
  (h.collect).isSome = true

lemma builderCallsFail_none : builderCallsFail ⟨none⟩ := by
  refine ⟨fun e => rfl, fun es => rfl, fun c r => rfl, fun e => rfl, fun es => rfl,
    fun ks => rfl, fun g l r => rfl, fun g l r => rfl, fun g l r => rfl,
    ?_, ?_, ?_, fun a b c => rfl, rfl⟩
  all_goals
    rintro ⟨o⟩ l r
    cases o <;> rfl

lemma builderCallsSucceed_some (p : LazyFrame) : builderCallsSucceed ⟨some p⟩ := by
  refine ⟨fun e => rfl, fun es => rfl, fun c r => rfl, fun e => rfl, fun es => rfl,
    fun ks => rfl, ?_, ?_, ?_, fun a b c => rfl, rfl⟩
  all_goals
    rintro ⟨o⟩ q l r hq
    obtain rfl : o = some q := hq
    rfl

def sampleExpr : PyExpr := ⟨.columnRef "a"⟩

def sampleFrame : LazyFrame := ⟨.scan "data", true, true, true⟩

def sampleFrame2 : LazyFrame := ⟨.scan "other", true, true, true⟩

/-! ### The claims -/

/-- C1: state of the round-trip law `to_physical (from_physical x) = x`.  It
holds on the representable range of the four time-of-day encodings, of the
date32 and date64 encodings and of the nanosecond- and second-precision
timestamp encodings; it FAILS on the code for the microsecond- and
millisecond-precision timestamp encodings, whose decoders pass the sub-second
remainder (in µs resp. ms) directly as the nanosecond argument of
`NaiveDateTime::from_timestamp` without rescaling, so the physical value 1
round-trips to 0. -/
theorem C1_roundtrip_law_status :
    (∀ v : ℤ, 0 ≤ v → v < 86400000000000 →
      (time64_nanosecond_as_time v).map naive_time_to_time64_nanoseconds = some v) ∧
    (∀ v : ℤ, 0 ≤ v → v < 86400000000 →
      (time64_microsecond_as_time v).map naive_time_to_time64_microseconds = some v) ∧
    (∀ v : ℤ, 0 ≤ v → v < 86400000 →
      (time32_millisecond_as_time v).map naive_time_to_time32_milliseconds = some v) ∧
    (∀ v : ℤ, 0 ≤ v → v < 86400 →
      (time32_second_as_time v).map naive_time_to_time32_seconds = some v) ∧
    (∀ v t, date64_as_datetime v = some t → naive_datetime_to_date64 t = v) ∧
    (∀ v t, timestamp_nanoseconds_as_datetime v = some t →
      naive_datetime_to_timestamp_nanoseconds t = v) ∧
    (∀ v t, timestamp_seconds_as_datetime v = some t →
      naive_datetime_to_timestamp_seconds t = v) ∧
    (∀ v t, date32_as_datetime v = some t →
      naive_date_to_date32 t.date unix_time_naive_date = v) ∧
    (timestamp_microseconds_as_datetime 1).map naive_datetime_to_timestamp_microseconds
      = some 0 ∧
    (timestamp_milliseconds_as_datetime 1).map naive_datetime_to_timestamp_milliseconds
      = some 0 :=
  ⟨time64_nanosecond_roundtrip, time64_microsecond_roundtrip,
    time32_millisecond_roundtrip, time32_second_roundtrip, date64_roundtrip,
    timestamp_nanoseconds_roundtrip, timestamp_seconds_roundtrip, date32_roundtrip,
    by decide, by decide⟩

/-- C2: narrowing a time-of-day value into a coarser unit.  The microsecond
and millisecond encoders truncate (they equal the nanosecond encoding divided
by the unit ratio, residual ticks discarded), but `naive_time_to_time32_seconds`
ADDS the raw nanosecond count to the second count instead of discarding it:
at 00:00:00.000000001 it returns 1 where the claim requires 0. -/
theorem C2_narrowing_truncation_status :
    (∀ t : NaiveTime, naive_time_to_time64_microseconds t
      = Int.tdiv (naive_time_to_time64_nanoseconds t) 1000) ∧
    (∀ t : NaiveTime, naive_time_to_time32_milliseconds t
      = Int.tdiv (naive_time_to_time64_nanoseconds t) 1000000) ∧
    naive_time_to_time32_seconds ⟨0, 1⟩ = 1 := by
  refine ⟨?_, ?_, by decide⟩
  · intro t
    unfold naive_time_to_time64_microseconds naive_time_to_time64_nanoseconds
      NaiveTime.hour NaiveTime.minute NaiveTime.second NaiveTime.nanosecond
      MICROSECONDS_IN_SECOND NANOSECONDS_IN_SECOND
    rw [show Int.tdiv ((t.frac : ℤ)) 1000 = (t.frac : ℤ) / 1000 from
        Int.tdiv_eq_ediv (Int.natCast_nonneg _) (by norm_num)]
    rw [Int.tdiv_eq_ediv (by positivity) (by norm_num)]
    omega
  · intro t
    unfold naive_time_to_time32_milliseconds naive_time_to_time64_nanoseconds
      NaiveTime.hour NaiveTime.minute NaiveTime.second NaiveTime.nanosecond
      MILLISECONDS_IN_SECOND NANOSECONDS_IN_SECOND
    rw [show Int.tdiv ((t.frac : ℤ)) 1000000 = (t.frac : ℤ) / 1000000 from
        Int.tdiv_eq_ediv (Int.natCast_nonneg _) (by norm_num)]
    rw [Int.tdiv_eq_ediv (by positivity) (by norm_num)]
    omega


/-- C3: `parse_from_str_slice` (the cited time and date instances) yields
exactly one output element per input string, in input order; element i is
null precisely when string i fails to parse under the format, and otherwise
holds the converted physical value — a per-element failure never fails the
batch (the function is total). -/
theorem C3_parse_from_str_slice_per_element :
    (∀ name v fmt,
      (Time64NanosecondChunked.parse_from_str_slice name v fmt).data.length
        = v.length) ∧
    (∀ (name : String) (v : List String) (fmt : String) (i : ℕ) (s : String), v[i]? = some s →
      ((Time64NanosecondChunked.parse_from_str_slice name v fmt).data[i]?
          = some none ↔ parse_naive_time_from_str s fmt = none) ∧
      ∀ t, parse_naive_time_from_str s fmt = some t →
        (Time64NanosecondChunked.parse_from_str_slice name v fmt).data[i]?
          = some (some (naive_time_to_time64_nanoseconds t))) ∧
    (∀ name v fmt,
      (Date32Chunked.parse_from_str_slice name v fmt).data.length = v.length) ∧
    (∀ (name : String) (v : List String) (fmt : String) (i : ℕ) (s : String), v[i]? = some s →
      ((Date32Chunked.parse_from_str_slice name v fmt).data[i]? = some none
          ↔ parse_naive_date_from_str s fmt = none) ∧
      ∀ d, parse_naive_date_from_str s fmt = some d →
        (Date32Chunked.parse_from_str_slice name v fmt).data[i]?
          = some (some (naive_date_to_date32 d unix_time_naive_date))) := by
  refine ⟨?_, ?_, ?_, ?_⟩
  · intro name v fmt
    simp [Time64NanosecondChunked.parse_from_str_slice, ChunkedArray.new_from_opt_iter]
  · intro name v fmt i s hs
    simp only [Time64NanosecondChunked.parse_from_str_slice,
      ChunkedArray.new_from_opt_iter, List.getElem?_map, hs, Option.map_some']
    cases hp : parse_naive_time_from_str s fmt with
    | none =>
      refine ⟨by simp, ?_⟩
      intro t ht
      cases ht
    | some t0 =>
      refine ⟨by simp, ?_⟩
      intro t ht
      injection ht with ht
      subst ht
      rfl
  · intro name v fmt
    simp [Date32Chunked.parse_from_str_slice, ChunkedArray.new_from_opt_iter]
  · intro name v fmt i s hs
    simp only [Date32Chunked.parse_from_str_slice,
      ChunkedArray.new_from_opt_iter, List.getElem?_map, hs, Option.map_some']
    cases hp : parse_naive_date_from_str s fmt with
    | none =>
      refine ⟨by simp, ?_⟩
      intro d hd
      cases hd
    | some d0 =>
      refine ⟨by simp, ?_⟩
      intro d hd
      injection hd with hd
      subst hd
      rfl

/-- C4: every builder method of the lazy-frame binding (filter, select, sort,
with_column(s), groupby, the three joins, optimization_toggle, collect, and
LazyGroupBy.agg) takes the plan out of the receiving handle: on a valid handle
it succeeds and leaves the receiver emptied, and on an emptied handle every
such call fails fast (the embedded panic) instead of operating on a stale
plan. -/
theorem C4_builder_methods_consume_handle :
    (∀ h p e, PyLazyFrame.ldf h = some p → ∃ r, h.filter e = some (⟨none⟩, r)) ∧
    (∀ h p es, PyLazyFrame.ldf h = some p → ∃ r, h.select es = some (⟨none⟩, r)) ∧
    (∀ h p c rv, PyLazyFrame.ldf h = some p → ∃ r, h.sort c rv = some (⟨none⟩, r)) ∧
    (∀ h p e, PyLazyFrame.ldf h = some p → ∃ r, h.with_column e = some (⟨none⟩, r)) ∧
    (∀ h p es, PyLazyFrame.ldf h = some p → ∃ r, h.with_columns es = some (⟨none⟩, r)) ∧
    (∀ h p ks, PyLazyFrame.ldf h = some p → ∃ g, h.groupby ks = some (⟨none⟩, g)) ∧
    (∀ h p g q l r, PyLazyFrame.ldf h = some p → PyLazyFrame.ldf g = some q →
      ∃ res, h.inner_join g l r = some (⟨none⟩, ⟨none⟩, res)) ∧
    (∀ h p g q l r, PyLazyFrame.ldf h = some p → PyLazyFrame.ldf g = some q →
      ∃ res, h.outer_join g l r = some (⟨none⟩, ⟨none⟩, res)) ∧
    (∀ h p g q l r, PyLazyFrame.ldf h = some p → PyLazyFrame.ldf g = some q →
      ∃ res, h.left_join g l r = some (⟨none⟩, ⟨none⟩, res)) ∧
    (∀ h p a b c, PyLazyFrame.ldf h = some p →
      ∃ r, h.optimization_toggle a b c = some (⟨none⟩, r)) ∧
    (∀ h p, PyLazyFrame.ldf h = some p → ∃ r, h.collect = some (⟨none⟩, r)) ∧
    (∀ g lg aggs, PyLazyGroupBy.lgb g = some lg →
      ∃ r, g.agg aggs = some (⟨none⟩, r)) ∧
    (∀ aggs, PyLazyGroupBy.agg ⟨none⟩ aggs = none) ∧
    builderCallsFail ⟨none⟩ := by
  refine ⟨?_, ?_, ?_, ?_, ?_, ?_, ?_, ?_, ?_, ?_, ?_, ?_, fun aggs => rfl,
    builderCallsFail_none⟩
  · rintro ⟨o⟩ p e hp
    obtain rfl : o = some p := hp
    exact ⟨_, rfl⟩
  · rintro ⟨o⟩ p es hp
    obtain rfl : o = some p := hp
    exact ⟨_, rfl⟩
  · rintro ⟨o⟩ p c rv hp
    obtain rfl : o = some p := hp
    exact ⟨_, rfl⟩
  · rintro ⟨o⟩ p e hp
    obtain rfl : o = some p := hp
    exact ⟨_, rfl⟩
  · rintro ⟨o⟩ p es hp
    obtain rfl : o = some p := hp
    exact ⟨_, rfl⟩
  · rintro ⟨o⟩ p ks hp
    obtain rfl : o = some p := hp
    exact ⟨_, rfl⟩
  · rintro ⟨o⟩ p ⟨o2⟩ q l r hp hq
    obtain rfl : o = some p := hp
    obtain rfl : o2 = some q := hq
    exact ⟨_, rfl⟩
  · rintro ⟨o⟩ p ⟨o2⟩ q l r hp hq
    obtain rfl : o = some p := hp
    obtain rfl : o2 = some q := hq
    exact ⟨_, rfl⟩
  · rintro ⟨o⟩ p ⟨o2⟩ q l r hp hq
    obtain rfl : o = some p := hp
    obtain rfl : o2 = some q := hq
    exact ⟨_, rfl⟩
  · rintro ⟨o⟩ p a b c hp
    obtain rfl : o = some p := hp
    exact ⟨_, rfl⟩
  · rintro ⟨o⟩ p hp
    obtain rfl : o = some p := hp
    exact ⟨_, rfl⟩
  · rintro ⟨o⟩ lg aggs hg
    obtain rfl : o = some lg := hg
    exact ⟨_, rfl⟩

/-- C5: the 32-bit date encoding is a day count from 1970-01-01 (decoding v
yields the datetime exactly v·86400 seconds after the epoch, with no
subsecond part, and encoding a date yields its signed whole-day offset from
the epoch), while the 64-bit date encoding is milliseconds since the epoch
(it equals the millisecond-timestamp encoder; the datetime one whole day
after the epoch encodes as 86400000, not as 1). -/
theorem C5_date32_days_date64_millis :
    (∀ v t, date32_as_datetime v = some t → t.secs = v * 86400 ∧ t.nsecs = 0) ∧
    (∀ d : NaiveDate, -2147483648 ≤ d.days → d.days < 2147483648 →
      naive_date_to_date32 d unix_time_naive_date = d.days) ∧
    (∀ t, naive_datetime_to_date64 t = naive_datetime_to_timestamp_milliseconds t) ∧
    (∀ t : NaiveDateTime, naive_datetime_to_date64 t
        = t.timestamp * 1000 + (t.nsecs / 1000000 : ℕ)) ∧
    naive_datetime_to_date64 ⟨86400, 0⟩ = 86400000 := by
  refine ⟨?_, ?_, fun t => rfl, fun t => rfl, by decide⟩
  · intro v t h
    unfold date32_as_datetime SECONDS_IN_DAY at h
    obtain ⟨hs, hn, -, -, -⟩ := from_timestamp_inv h
    exact ⟨hs, hn⟩
  · intro d h1 h2
    unfold naive_date_to_date32
    have hu : unix_time_naive_date.days = 0 := by decide
    rw [hu, sub_zero]
    exact asI32_eq h1 h2

/-- C6: parsing the single text value "23:56:04" with format %H:%M:%S into a
nanosecond-precision time column yields the physical value 86164000000000. -/
theorem C6_parse_time_example :
    Time64NanosecondChunked.parse_from_str_slice "times" ["23:56:04"] "%H:%M:%S"
      = ⟨"times", [some 86164000000000]⟩ := by
  decide

/-- C7: parsing the single text value "1988-08-25 00:00:16" with format
%Y-%m-%d %H:%M:%S into a millisecond-precision datetime column yields the
physical value 588470416000. -/
theorem C7_parse_datetime_example :
    TimestampMillisecondChunked.parse_from_str_slice "name" ["1988-08-25 00:00:16"]
        "%Y-%m-%d %H:%M:%S"
      = ⟨"name", [some 588470416000]⟩ := by
  decide


/-- C8: every failure the foreign object raises during read, write, seek or
flush is translated by `pyerr_to_io_err` into a textual I/O error — of kind
Other, carrying the foreign message text when the dunder string call yields
one, and a fixed generic text otherwise — and the four operations never
surface an error in any other form than a `pyerr_to_io_err` translation. -/
theorem C8_adapter_io_error_translation :
    (∀ e : PyErr, (pyerr_to_io_err e).kind = IoErrorKind.other) ∧
    (∀ e s, PyErr.strRepr e = .reprOk s → (pyerr_to_io_err e).msg = s) ∧
    (∀ e, PyErr.strRepr e = .notAString →
      (pyerr_to_io_err e).msg = "An unknown error has occurred") ∧
    (∀ e, PyErr.strRepr e = .raisesErr →
      (pyerr_to_io_err e).msg = "Err doesn\x27t have __str__") ∧
    (∀ o n e, (PyFileLikeObject.inner o).readMethod n = .error e →
      PyFileLikeObject.read o n = .error (pyerr_to_io_err e)) ∧
    (∀ o buf e, (PyFileLikeObject.inner o).writeMethod buf = .error e →
      PyFileLikeObject.write o buf = .error (pyerr_to_io_err e)) ∧
    (∀ o pos e, (PyFileLikeObject.inner o).seekMethod (seekOffset pos) (seekWhence pos)
        = .error e →
      PyFileLikeObject.seek o pos = .error (pyerr_to_io_err e)) ∧
    (∀ o e, (PyFileLikeObject.inner o).flushMethod = .error e →
      PyFileLikeObject.flush o = .error (pyerr_to_io_err e)) ∧
    (∀ o n err, PyFileLikeObject.read o n = .error err →
      ∃ e, err = pyerr_to_io_err e) ∧
    (∀ o buf err, PyFileLikeObject.write o buf = .error err →
      ∃ e, err = pyerr_to_io_err e) ∧
    (∀ o pos err, PyFileLikeObject.seek o pos = .error err →
      ∃ e, err = pyerr_to_io_err e) ∧
    (∀ o err, PyFileLikeObject.flush o = .error err →
      ∃ e, err = pyerr_to_io_err e) := by
  refine ⟨?_, ?_, ?_, ?_, ?_, ?_, ?_, ?_, ?_, ?_, ?_, ?_⟩
  · rintro ⟨r⟩
    cases r <;> rfl
  · rintro ⟨r⟩ s hr
    obtain rfl : r = .reprOk s := hr
    rfl
  · rintro ⟨r⟩ hr
    obtain rfl : r = .notAString := hr
    rfl
  · rintro ⟨r⟩ hr
    obtain rfl : r = .raisesErr := hr
    rfl
  · intro o n e he
    unfold PyFileLikeObject.read
    rw [he]
  · intro o buf e he
    unfold PyFileLikeObject.write
    rw [he]
  · intro o pos e he
    rw [seek_eq, he]
  · intro o e he
    unfold PyFileLikeObject.flush
    rw [he]
  · intro o n err h
    unfold PyFileLikeObject.read at h
    split at h
    · injection h with h
      exact ⟨_, h.symm⟩
    · split at h
      · injection h with h
        exact ⟨_, h.symm⟩
      · cases h
  · intro o buf err h
    unfold PyFileLikeObject.write at h
    split at h
    · injection h with h
      exact ⟨_, h.symm⟩
    · split at h
      · injection h with h
        exact ⟨_, h.symm⟩
      · cases h
  · intro o pos err h
    rw [seek_eq] at h
    split at h
    · injection h with h
      exact ⟨_, h.symm⟩
    · split at h
      · injection h with h
        exact ⟨_, h.symm⟩
      · cases h
  · intro o err h
    unfold PyFileLikeObject.flush at h
    split at h
    · injection h with h
      exact ⟨_, h.symm⟩
    · cases h

/-- C9: describe_plan and describe_optimized_plan render the plan without
executing or consuming it: on a valid handle both calls succeed, return the
receiver unchanged (they borrow it immutably), and every builder method,
collect included, still succeeds on that handle afterwards. -/
theorem C9_describe_does_not_consume (h : PyLazyFrame) (p : LazyFrame)
    (hp : PyLazyFrame.ldf h = some p) :
    h.describe_plan = some (h, p.describe_plan) ∧
    h.describe_optimized_plan = some (h, p.describe_optimized_plan) ∧
    builderCallsSucceed h := by
  obtain ⟨o⟩ := h
  obtain rfl : o = some p := hp
  exact ⟨rfl, rfl, builderCallsSucceed_some p⟩

/-- C9, witnessed at a concrete handle. -/
theorem C9_describe_does_not_consume_witness :
    PyLazyFrame.describe_plan ⟨some sampleFrame⟩
        = some (⟨some sampleFrame⟩, sampleFrame.describe_plan) ∧
    PyLazyFrame.describe_optimized_plan ⟨some sampleFrame⟩
        = some (⟨some sampleFrame⟩, sampleFrame.describe_optimized_plan) ∧
    builderCallsSucceed ⟨some sampleFrame⟩ :=
  C9_describe_does_not_consume ⟨some sampleFrame⟩ sampleFrame rfl

/-- C10: each join builder consumes both plan handles: on two valid handles
the join succeeds with both the receiver and the other frame emptied, and
every subsequent builder call on an emptied handle fails fast. -/
theorem C10_joins_consume_both_handles (h g : PyLazyFrame) (p q : LazyFrame)
    (l r : PyExpr) (hp : PyLazyFrame.ldf h = some p)
    (hq : PyLazyFrame.ldf g = some q) :
    (∃ res, h.inner_join g l r = some (⟨none⟩, ⟨none⟩, res)) ∧
    (∃ res, h.outer_join g l r = some (⟨none⟩, ⟨none⟩, res)) ∧
    (∃ res, h.left_join g l r = some (⟨none⟩, ⟨none⟩, res)) ∧
    builderCallsFail ⟨none⟩ := by
  obtain ⟨o⟩ := h
  obtain ⟨o2⟩ := g
  obtain rfl : o = some p := hp
  obtain rfl : o2 = some q := hq
  exact ⟨⟨_, rfl⟩, ⟨_, rfl⟩, ⟨_, rfl⟩, builderCallsFail_none⟩

/-- C10, witnessed at concrete handles. -/
theorem C10_joins_consume_both_handles_witness :
    (∃ res, PyLazyFrame.inner_join ⟨some sampleFrame⟩ ⟨some sampleFrame2⟩
        sampleExpr sampleExpr = some (⟨none⟩, ⟨none⟩, res)) ∧
    (∃ res, PyLazyFrame.outer_join ⟨some sampleFrame⟩ ⟨some sampleFrame2⟩
        sampleExpr sampleExpr = some (⟨none⟩, ⟨none⟩, res)) ∧
    (∃ res, PyLazyFrame.left_join ⟨some sampleFrame⟩ ⟨some sampleFrame2⟩
        sampleExpr sampleExpr = some (⟨none⟩, ⟨none⟩, res)) ∧
    builderCallsFail ⟨none⟩ :=
  C10_joins_consume_both_handles ⟨some sampleFrame⟩ ⟨some sampleFrame2⟩
    sampleFrame sampleFrame2 sampleExpr sampleExpr rfl rfl


end Polars
